import Mathlib

/-!
Verification development for the youtube-uploader repository.

This file gives a shallow embedding of the quota ledger
(src/src/utils/rate_limiter.py), the chunked transfer engine with its retry
loop (src/src/uploader/video_uploader.py) and the batch orchestration loop
(src/main.py), together with theorems checking the specification claims
against those embeddings.  Machine integers of the Python source are
modelled as Int (Python integers are unbounded); wall-clock datetimes are
modelled as a structure of calendar fields; fallible operations return
Option values.  Stateful methods become explicit state-passing functions.
-/

/-- Model of a Python UTC datetime.  The calendar date is abstracted as a
day count (adding one day via timedelta increments it by one, and date
comparison compares it); hour, minute, second and microsecond are the
time-of-day fields used by the source. -/
structure PyDateTime where
  day : Nat
  hour : Nat
  minute : Nat
  second : Nat
  microsecond : Nat
deriving DecidableEq

/-- Date-only strict comparison, embedding the source comparison
reset_time.date() < datetime.now(timezone.utc).date() of rate_limiter.py
line 71. -/
def dateLtb (a b : PyDateTime) : Bool :=
  decide (a.day < b.day)

/-- Full datetime comparison a <= b (lexicographic on all fields).  This
formalises the wording of the claim about the stored resetTime being in the
past (current time >= stored resetTime); the source itself never performs
this comparison. -/
def dtLeb (a b : PyDateTime) : Bool :=
  decide (a.day < b.day) ||
    (decide (a.day = b.day) &&
      (decide (a.hour < b.hour) ||
        (decide (a.hour = b.hour) &&
          (decide (a.minute < b.minute) ||
            (decide (a.minute = b.minute) &&
              (decide (a.second < b.second) ||
                (decide (a.second = b.second) &&
                  decide (a.microsecond ≤ b.microsecond))))))))

/-- One entry of the append-only operations log (rate_limiter.py lines
173-178).  The wall-clock timestamp recorded by the source is metadata
independent of all quota arithmetic and is not modelled. -/
structure OperationRecord where
  opType : String
  cost : Int
  details : Option String
deriving DecidableEq

/-- The persisted quota ledger state self.quota_data (rate_limiter.py lines
93-99). -/
structure QuotaData where
  daily_quota : Int
  used_quota : Int
  remaining_quota : Int
  reset_time : PyDateTime
  operations : List OperationRecord
deriving DecidableEq

/-- The fixed cost table RateLimiter.OPERATION_COSTS (rate_limiter.py lines
25-32). -/
def OPERATION_COSTS : List (String × Int) :=
  [("video_upload", 1600), ("video_insert", 1600), ("playlist_create", 50),
   ("playlist_insert", 50), ("playlist_list", 1), ("video_list", 1)]

/-- OPERATION_COSTS.get(operation, 0): table lookup defaulting to 0 for
unknown operation types. -/
def cost_of (op : String) : Int :=
  (OPERATION_COSTS.lookup op).getD 0

/-- RateLimiter._create_new_quota_data (rate_limiter.py lines 80-99): fresh
ledger with the next reset time computed from the current time, at the
fixed reset hour 08:00 UTC (midnight Pacific), pushed to the next day when
the current hour is already at or past 8. -/
def create_new_quota_data (daily_quota : Int) (now : PyDateTime) : QuotaData :=
  let base : PyDateTime :=
    { day := now.day, hour := 8, minute := 0, second := 0, microsecond := 0 }
  let reset_time := if now.hour ≥ 8 then { base with day := base.day + 1 } else base
  { daily_quota := daily_quota, used_quota := 0, remaining_quota := daily_quota,
    reset_time := reset_time, operations := [] }

/-- RateLimiter._load_quota_data (rate_limiter.py lines 63-78).  A stored
ledger (when the file exists and parses; none otherwise) is discarded and
rebuilt exactly when its reset_time has a calendar date strictly earlier
than the current date. -/
def load_quota_data (daily_quota : Int) (now : PyDateTime)
    (stored : Option QuotaData) : QuotaData :=
  match stored with
  | none => create_new_quota_data daily_quota now
  | some data =>
    if dateLtb data.reset_time now then create_new_quota_data daily_quota now
    else data

/-- RateLimiter.check_quota (rate_limiter.py lines 136-158).  The method
reads the ledger and returns a Bool; it contains no assignment to the
ledger, so the embedding returns the input state as the second component. -/
def check_quota (q : QuotaData) (op : String) : Bool × QuotaData :=
  if cost_of op > q.remaining_quota then (false, q) else (true, q)

/-- RateLimiter.consume_quota (rate_limiter.py lines 160-186): adds the
cost to used_quota, subtracts it from remaining_quota and appends one
operation record.  The synchronous best-effort file write does not change
the in-memory state. -/
def consume_quota (q : QuotaData) (op : String) (details : Option String) : QuotaData :=
  { q with
    used_quota := q.used_quota + cost_of op,
    remaining_quota := q.remaining_quota - cost_of op,
    operations := q.operations ++ [{ opType := op, cost := cost_of op, details := details }] }

/-- RateLimiter.can_perform_operations (rate_limiter.py lines 215-230):
sums cost times count over all entries of the mapping (modelled as an
association list, as Python dict keys are unique) and compares with the
remaining quota. -/
def can_perform_operations (q : QuotaData) (ops : List (String × Nat)) : Bool :=
  decide ((ops.map (fun p => cost_of p.1 * (p.2 : Int))).sum ≤ q.remaining_quota)

/-- Concrete ledger used by witnesses: 8000 of 10000 units used. -/
def q2000 : QuotaData :=
  { daily_quota := 10000, used_quota := 8000, remaining_quota := 2000,
    reset_time := { day := 0, hour := 8, minute := 0, second := 0, microsecond := 0 },
    operations := [] }

/-- Stored ledger for the reset counterexample: reset_time at day 100,
08:00:00 UTC, with 1600 units already consumed. -/
def storedC4 : QuotaData :=
  { daily_quota := 10000, used_quota := 1600, remaining_quota := 8400,
    reset_time := { day := 100, hour := 8, minute := 0, second := 0, microsecond := 0 },
    operations := [] }

/-- Current time for the reset counterexample: day 100, 09:00:00 UTC, one
hour past the stored reset time but on the same calendar date. -/
def nowC4 : PyDateTime :=
  { day := 100, hour := 9, minute := 0, second := 0, microsecond := 0 }

/-- Stored ledger whose reset_time date (day 95) is well in the past. -/
def storedOldC4 : QuotaData :=
  { daily_quota := 10000, used_quota := 1600, remaining_quota := 8400,
    reset_time := { day := 95, hour := 8, minute := 0, second := 0, microsecond := 0 },
    operations := [] }

/-- One observable outcome of a request.next_chunk() call inside the upload
loop (video_uploader.py line 192): a progress chunk (chunk none), a
terminal response carrying an optional id field (chunk (some idField)), an
HttpError with the given status, a ResumableUploadError, or a
ConnectionError. -/
inductive ChunkOutcome where
  | chunk (final : Option (Option String))
  | httpErr (status : Nat)
  | resumableErr
  | connErr
deriving DecidableEq

/-- Exception classes that can escape the upload loop. -/
inductive UploadError where
  | http (status : Nat)
  | resumable
  | conn
deriving DecidableEq

/-- Result of one invocation of the upload loop body: a terminal response
with its id field, a raised exception, or exhaustion of the observation
trace while the loop is still running.  The second argument records the
backoff sleeps performed, in order and in seconds. -/
inductive LoopResult where
  | completed (idField : Option String) (sleeps : List Nat)
  | raised (e : UploadError) (sleeps : List Nat)
  | outOfTrace (sleeps : List Nat)
deriving DecidableEq

/-- The body of VideoUploader._execute_upload_with_retry (video_uploader.py
lines 186-241), i.e. the while loop without the tenacity decorator, run
against a finite trace of chunk outcomes.  Server statuses 500, 502, 503
and 504 and ResumableUploadError increment error_count and, when the count
does not exceed max_retries, sleep retry_delay * 2 ^ error_count before the
next chunk call; when the count exceeds max_retries, or on any other
HttpError status, the exception is raised; a ConnectionError is not caught
by the loop and propagates. -/
def execute_upload_with_retry (max_retries retry_delay : Nat) :
    Nat → List Nat → List ChunkOutcome → LoopResult
  | _, sleeps, [] => LoopResult.outOfTrace sleeps
  | error_count, sleeps, c :: rest =>
    match c with
    | ChunkOutcome.chunk none =>
        execute_upload_with_retry max_retries retry_delay error_count sleeps rest
    | ChunkOutcome.chunk (some idField) => LoopResult.completed idField sleeps
    | ChunkOutcome.httpErr s =>
        if s = 500 ∨ s = 502 ∨ s = 503 ∨ s = 504 then
          if error_count + 1 > max_retries then
            LoopResult.raised (UploadError.http s) sleeps
          else
            execute_upload_with_retry max_retries retry_delay (error_count + 1)
              (sleeps ++ [retry_delay * 2 ^ (error_count + 1)]) rest
        else LoopResult.raised (UploadError.http s) sleeps
    | ChunkOutcome.resumableErr =>
        if error_count + 1 > max_retries then
          LoopResult.raised UploadError.resumable sleeps
        else
          execute_upload_with_retry max_retries retry_delay (error_count + 1)
            (sleeps ++ [retry_delay * 2 ^ (error_count + 1)]) rest
    | ChunkOutcome.connErr => LoopResult.raised UploadError.conn sleeps

/-- The tenacity decorator on _execute_upload_with_retry (video_uploader.py
lines 163-170): stop_after_attempt(5), retrying whenever the call raises an
HttpError, ResumableUploadError or ConnectionError (every UploadError
constructor), and re-raising the last exception once five attempts have
been made.  Each entry of the traces list is the chunk-outcome trace
observed during one invocation of the decorated body; the first component
of the result counts the invocations made.  The waits the decorator
inserts between its own attempts are not modelled, only their number. -/
def tenacity_retry (max_retries retry_delay stop_attempts : Nat) :
    Nat → List (List ChunkOutcome) → Nat × LoopResult
  | attempt, [] => (attempt, LoopResult.outOfTrace [])
  | attempt, t :: rest =>
    match execute_upload_with_retry max_retries retry_delay 0 [] t with
    | LoopResult.completed r s => (attempt + 1, LoopResult.completed r s)
    | LoopResult.outOfTrace s => (attempt + 1, LoopResult.outOfTrace s)
    | LoopResult.raised e s =>
      if attempt + 1 ≥ stop_attempts then (attempt + 1, LoopResult.raised e s)
      else tenacity_retry max_retries retry_delay stop_attempts (attempt + 1) rest

/-- VideoUploader.SUPPORTED_FORMATS (video_uploader.py lines 35-48). -/
def SUPPORTED_FORMATS : List String :=
  [".mp4", ".avi", ".mov", ".wmv", ".flv", ".webm", ".mkv", ".ts",
   ".mpeg", ".mpg", ".m4v", ".3gp"]

/-- VideoUploader.MAX_FILE_SIZE, 256 GiB in bytes (video_uploader.py line 51). -/
def MAX_FILE_SIZE : Nat := 256 * 1024 * 1024 * 1024

/-- Outcome of the decorated _execute_upload_with_retry call as seen from
upload_video: a terminal response with its optional id field, a reraised
HttpError, or any other exception (ResumableUploadError, ConnectionError,
and everything else reaching the generic handler). -/
inductive TransferResult where
  | response (idField : Option String)
  | raisedHttp
  | raisedOther
deriving DecidableEq

/-- One file of the batch together with the externally determined facts the
orchestration consumes for it: its filesystem state (existence, regular
file, size, lowercased extension), the metadata fields used by main.py
(title, playlist name), whether the history already records it, the outcome
of the transfer for it, and the playlist collaborator results
(get_or_create_playlist result and add_video_to_playlist success). -/
structure FileSpec where
  name : String
  title : String
  suffix : String
  fileExists : Bool
  isFile : Bool
  size : Nat
  alreadyUploaded : Bool
  playlist : Option String
  playlistId : Option String
  attachOk : Bool
  transfer : TransferResult
deriving DecidableEq

/-- VideoUploader.validate_video_file (video_uploader.py lines 76-122):
the file must exist, be a regular file, have a supported extension, not
exceed MAX_FILE_SIZE, and be non-empty.  The source lowercases the
extension before the membership test; the suffix field of FileSpec is
modelled as that already-lowercased extension. -/
def validate_video_file (f : FileSpec) : Bool :=
  if !f.fileExists then false
  else if !f.isFile then false
  else if !(decide (f.suffix ∈ SUPPORTED_FORMATS)) then false
  else if f.size > MAX_FILE_SIZE then false
  else if f.size = 0 then false
  else true

/-- VideoUploader.upload_video (video_uploader.py lines 243-461): returns
None when validation fails; otherwise the id field of the terminal response
when present and truthy (an empty string id is falsy in Python and yields
None with an error log, lines 443-453); every HttpError (lines 455-457) and
every other exception (lines 459-461) is caught and converted to None. -/
def upload_video (f : FileSpec) : Option String :=
  if !validate_video_file f then none
  else
    match f.transfer with
    | TransferResult.response idField =>
      match idField with
      | some i => if i.isEmpty then none else some i
      | none => none
    | TransferResult.raisedHttp => none
    | TransferResult.raisedOther => none

/-- YouTubeUploader.scan_videos (main.py lines 202-227): collects exactly
the directory entries whose extension is one of the supported formats (one
glob per extension) and sorts them by lowercased name. -/
def scan_videos (files : List FileSpec) : List FileSpec :=
  (files.filter (fun f => decide (f.suffix ∈ SUPPORTED_FORMATS))).mergeSort
    (fun a b => decide (a.name.toLower ≤ b.name.toLower))

/-- The mutable counters of the stats dictionary of process_uploads
(main.py lines 236-243): counts plus the per-file outcome log
stats["videos"] as (filename, status) pairs. -/
structure Stats where
  successful : Nat
  failed : Nat
  skipped : Nat
  videos : List (String × String)
deriving DecidableEq

/-- Orchestrator-visible mutable state: the quota ledger plus the number of
rate_limiter.wait_for_token calls made so far.  Each such call blocks until
the token bucket holds at least one token and then removes exactly one
token, so this count is the total throttle consumption of the run; the
wall-clock refill arithmetic inside the bucket is not needed by any claim. -/
structure OrchState where
  quota : QuotaData
  tokensTaken : Nat
deriving DecidableEq

/-- Control outcome of one iteration of the upload loop: continue with the
next file, or break out of the batch. -/
inductive Ctl where
  | proceed
  | stop
deriving DecidableEq

/-- Python truthiness of metadata.playlist (main.py line 285): a playlist
is requested when the field is present and non-empty. -/
def playlistRequested (f : FileSpec) : Bool :=
  match f.playlist with
  | none => false
  | some p => !p.isEmpty

/-- The playlist block of process_uploads (main.py lines 310-333), run
after a successful upload: when a playlist is requested, ask the external
collaborator for the playlist id; when that is truthy, wait for a throttle
token, attempt the attach, and consume playlist_insert quota only when the
attach succeeds. -/
def attach_phase (st : OrchState) (f : FileSpec) : OrchState :=
  match f.playlist with
  | none => st
  | some p =>
    if p.isEmpty then st
    else
      match f.playlistId with
      | none => st
      | some pid =>
        if pid.isEmpty then st
        else
          let st1 := { st with tokensTaken := st.tokensTaken + 1 }
          if f.attachOk then
            { st1 with quota := consume_quota st1.quota "playlist_insert" (some p) }
          else st1

/-- The per-file tail of process_uploads after the pre-flight checks
(main.py lines 293-353): wait for a throttle token, run the upload, and on
success consume video_upload quota, run the playlist block and record a
success; on failure record a failure.  Either way the loop proceeds to the
next file. -/
def upload_phase (st : OrchState) (stats : Stats) (f : FileSpec) : OrchState × Stats × Ctl :=
  let st1 := { st with tokensTaken := st.tokensTaken + 1 }
  match upload_video f with
  | some _ =>
    let st2 := { st1 with quota := consume_quota st1.quota "video_upload" (some f.title) }
    let st3 := attach_phase st2 f
    (st3,
     { stats with successful := stats.successful + 1,
                  videos := stats.videos ++ [(f.name, "success")] },
     Ctl.proceed)
  | none =>
    (st1,
     { stats with failed := stats.failed + 1,
                  videos := stats.videos ++ [(f.name, "failed")] },
     Ctl.proceed)

/-- One iteration of the loop body of process_uploads (main.py lines
265-353): skip files already uploaded; break the batch when the upload
quota pre-check fails; when a playlist is requested, also break when the
compound upload-plus-insert check fails; otherwise run the upload phase. -/
def process_one (st : OrchState) (stats : Stats) (f : FileSpec) : OrchState × Stats × Ctl :=
  if f.alreadyUploaded then
    (st, { stats with skipped := stats.skipped + 1 }, Ctl.proceed)
  else if (check_quota st.quota "video_upload").1 = false then
    (st, stats, Ctl.stop)
  else if playlistRequested f &&
      !(can_perform_operations st.quota [("video_upload", 1), ("playlist_insert", 1)]) then
    (st, stats, Ctl.stop)
  else upload_phase st stats f

/-- The batch loop of YouTubeUploader.process_uploads (main.py lines
265-353) over the scanned queue. -/
def process_uploads (st : OrchState) (stats : Stats) : List FileSpec → OrchState × Stats
  | [] => (st, stats)
  | f :: rest =>
    match process_one st stats f with
    | (st1, stats1, Ctl.proceed) => process_uploads st1 stats1 rest
    | (st1, stats1, Ctl.stop) => (st1, stats1)

/-- Orchestrator state over the ledger q2000 with no tokens taken yet. -/
def st2000 : OrchState := { quota := q2000, tokensTaken := 0 }

/-- A ledger with only 400 units remaining, below the upload cost. -/
def q400 : QuotaData :=
  { daily_quota := 10000, used_quota := 9600, remaining_quota := 400,
    reset_time := { day := 0, hour := 8, minute := 0, second := 0, microsecond := 0 },
    operations := [] }

/-- Orchestrator state over the ledger q400. -/
def st400 : OrchState := { quota := q400, tokensTaken := 0 }

/-- Fresh stats at the start of a batch. -/
def stats0 : Stats := { successful := 0, failed := 0, skipped := 0, videos := [] }

/-- First valid upload candidate of the end-to-end scenario. -/
def file1 : FileSpec :=
  { name := "f1.mp4", title := "T1", suffix := ".mp4", fileExists := true,
    isFile := true, size := 1000, alreadyUploaded := false, playlist := none,
    playlistId := none, attachOk := false,
    transfer := TransferResult.response (some "vid1") }

/-- Second valid upload candidate of the end-to-end scenario. -/
def file2 : FileSpec :=
  { name := "f2.mp4", title := "T2", suffix := ".mp4", fileExists := true,
    isFile := true, size := 1000, alreadyUploaded := false, playlist := none,
    playlistId := none, attachOk := false,
    transfer := TransferResult.response (some "vid2") }

/-- Third valid upload candidate of the end-to-end scenario. -/
def file3 : FileSpec :=
  { name := "f3.mp4", title := "T3", suffix := ".mp4", fileExists := true,
    isFile := true, size := 1000, alreadyUploaded := false, playlist := none,
    playlistId := none, attachOk := false,
    transfer := TransferResult.response (some "vid3") }

/-- A queued file that fails validation: supported extension but empty. -/
def badFile : FileSpec :=
  { name := "empty.mp4", title := "E", suffix := ".mp4", fileExists := true,
    isFile := true, size := 0, alreadyUploaded := false, playlist := none,
    playlistId := none, attachOk := false,
    transfer := TransferResult.response (some "x") }

/-- A valid file with a requested playlist whose attach operation fails. -/
def plFile : FileSpec :=
  { name := "g.mp4", title := "G", suffix := ".mp4", fileExists := true,
    isFile := true, size := 5, alreadyUploaded := false, playlist := some "PL",
    playlistId := some "plid", attachOk := false,
    transfer := TransferResult.response (some "vidG") }

/-- A valid file whose transfer returns the id abc. -/
def okFile : FileSpec :=
  { name := "ok.mp4", title := "OK", suffix := ".mp4", fileExists := true,
    isFile := true, size := 7, alreadyUploaded := false, playlist := none,
    playlistId := none, attachOk := false,
    transfer := TransferResult.response (some "abc") }

/-- A directory entry with the unsupported extension xyz. -/
def xyzFile : FileSpec :=
  { name := "clip.xyz", title := "X", suffix := ".xyz", fileExists := true,
    isFile := true, size := 9, alreadyUploaded := false, playlist := none,
    playlistId := none, attachOk := false,
    transfer := TransferResult.response (some "y") }

/-- Helper for claim C1: check_quota answers whether the cost of the
operation fits in the remaining quota, and does not modify the ledger. -/
theorem check_quota_aux (q : QuotaData) (op : String) :
    ((check_quota q op).1 = true ↔ cost_of op ≤ q.remaining_quota) ∧
      (check_quota q op).2 = q := by
  unfold check_quota
  split_ifs with h
  · exact ⟨by simp; omega, rfl⟩
  · exact ⟨by simp; omega, rfl⟩

/-- Claim C1: for every operation type whose cost C appears in the cost
table and every ledger state with remaining quota R, check_quota returns
true iff C <= R, and it leaves the ledger state unchanged. -/
theorem check_quota_correct (q : QuotaData) (op : String) (c : Int)
    (h : (op, c) ∈ OPERATION_COSTS) :
    ((check_quota q op).1 = true ↔ c ≤ q.remaining_quota) ∧
      (check_quota q op).2 = q := by
  have hc : cost_of op = c := by
    simp only [OPERATION_COSTS, List.mem_cons, List.not_mem_nil, or_false,
      Prod.mk.injEq] at h
    rcases h with ⟨rfl, rfl⟩ | ⟨rfl, rfl⟩ | ⟨rfl, rfl⟩ | ⟨rfl, rfl⟩ |
      ⟨rfl, rfl⟩ | ⟨rfl, rfl⟩ <;> decide
  have h2 := check_quota_aux q op
  rw [hc] at h2
  exact h2

/-- Witness for C1 at the concrete ledger q2000 and the upload operation
whose table cost is 1600. -/
theorem check_quota_correct_inst :
    ((check_quota q2000 "video_upload").1 = true ↔ (1600 : Int) ≤ q2000.remaining_quota) ∧
      (check_quota q2000 "video_upload").2 = q2000 :=
  check_quota_correct q2000 "video_upload" 1600 (by decide)

/-- Claim C2: consume_quota increases used_quota by exactly the cost of the
operation, decreases remaining_quota by the same amount, preserves the sum
used + remaining, and appends exactly one operation record. -/
theorem consume_quota_invariant (q : QuotaData) (op : String) (details : Option String) :
    (consume_quota q op details).used_quota = q.used_quota + cost_of op ∧
    (consume_quota q op details).remaining_quota = q.remaining_quota - cost_of op ∧
    (consume_quota q op details).used_quota + (consume_quota q op details).remaining_quota
        = q.used_quota + q.remaining_quota ∧
    (consume_quota q op details).operations
        = q.operations ++ [{ opType := op, cost := cost_of op, details := details }] := by
  refine ⟨rfl, rfl, ?_, rfl⟩
  simp only [consume_quota]
  omega

/-- Claim C3: can_perform_operations returns true iff the sum of
cost(op) * count over all entries is at most the remaining quota, and in
particular returns false whenever the total strictly exceeds it. -/
theorem can_perform_operations_correct (q : QuotaData) (ops : List (String × Nat)) :
    (can_perform_operations q ops = true ↔
        (ops.map (fun p => cost_of p.1 * (p.2 : Int))).sum ≤ q.remaining_quota) ∧
    (q.remaining_quota < (ops.map (fun p => cost_of p.1 * (p.2 : Int))).sum →
        can_perform_operations q ops = false) := by
  unfold can_perform_operations
  refine ⟨by simp, fun h => ?_⟩
  simp only [decide_eq_false_iff_not]
  omega

/-- Witness for C3: two uploads cost 3200, which exceeds the 2000 units
remaining in q2000, so the compound check refuses. -/
theorem can_perform_operations_correct_inst :
    can_perform_operations q2000 [("video_upload", 2)] = false :=
  (can_perform_operations_correct q2000 [("video_upload", 2)]).2 (by decide)

/-- Counterexample to claim C4 as stated: at day 100 09:00 UTC the stored
reset time (day 100 08:00 UTC) is in the past, yet loading keeps the used
counter at 1600 instead of resetting it to 0, because the source only
compares calendar dates. -/
theorem load_reset_cex :
    dtLeb storedC4.reset_time nowC4 = true ∧
    ¬ (load_quota_data 10000 nowC4 (some storedC4)).used_quota = 0 := by
  decide

/-- Claim C4 (amended): loading rebuilds the ledger exactly when the stored
reset time has a calendar date strictly earlier than the current date (a
reset time already passed on the same date does not trigger a rebuild), in
which case used becomes 0, remaining becomes the daily quota, and the new
reset time is computed from the current time: the current date at hour 8,
advanced by one day when the current hour is at least 8; otherwise the
stored ledger is returned unchanged. -/
theorem load_reset_amended (dq : Int) (now : PyDateTime) (stored : QuotaData) :
    (stored.reset_time.day < now.day →
        load_quota_data dq now (some stored) = create_new_quota_data dq now ∧
        (create_new_quota_data dq now).used_quota = 0 ∧
        (create_new_quota_data dq now).remaining_quota = dq ∧
        (create_new_quota_data dq now).reset_time =
          (if now.hour ≥ 8 then
              { day := now.day + 1, hour := 8, minute := 0, second := 0, microsecond := 0 }
            else
              { day := now.day, hour := 8, minute := 0, second := 0, microsecond := 0 })) ∧
    (¬ stored.reset_time.day < now.day →
        load_quota_data dq now (some stored) = stored) := by
  constructor
  · intro h
    refine ⟨?_, rfl, rfl, ?_⟩
    · simp [load_quota_data, dateLtb, h]
    · simp only [create_new_quota_data]
  · intro h
    simp [load_quota_data, dateLtb, h]

/-- Witness for C4 (amended), evaluating both branches: a stored reset time
at day 95 triggers a rebuild at day 100 09:00 (used becomes 0 and the new
reset time is day 101 at 08:00), while the same-date stored ledger storedC4
is returned unchanged. -/
theorem load_reset_amended_inst :
    load_quota_data 10000 nowC4 (some storedOldC4) = create_new_quota_data 10000 nowC4 ∧
    (create_new_quota_data 10000 nowC4).used_quota = 0 ∧
    load_quota_data 10000 nowC4 (some storedC4) = storedC4 :=
  ⟨((load_reset_amended 10000 nowC4 storedOldC4).1 (by decide)).1,
   ((load_reset_amended 10000 nowC4 storedOldC4).1 (by decide)).2.1,
   (load_reset_amended 10000 nowC4 storedC4).2 (by decide)⟩

/-- Helper for claim C5: starting from error count ec with ec + j = m, a
run of j + 1 consecutive retryable 503 failures performs j backoff sleeps
of retry_delay * 2 ^ (count) seconds for counts ec+1, ..., ec+j and then
raises. -/
theorem backoff_aux (m d : Nat) :
    ∀ (j ec : Nat) (sleeps : List Nat), ec + j = m →
      execute_upload_with_retry m d ec sleeps
          (List.replicate (j + 1) (ChunkOutcome.httpErr 503)) =
        LoopResult.raised (UploadError.http 503)
          (sleeps ++ (List.range j).map (fun i => d * 2 ^ (ec + 1 + i))) := by
  intro j
  induction j with
  | zero =>
    intro ec sleeps h
    have hec : ec = m := by omega
    subst hec
    simp [execute_upload_with_retry]
  | succ j ih =>
    intro ec sleeps h
    have h1 : ¬ (ec + 1 > m) := by omega
    rw [List.replicate_succ]
    have hstep : execute_upload_with_retry m d ec sleeps
        (ChunkOutcome.httpErr 503 :: List.replicate (j + 1) (ChunkOutcome.httpErr 503)) =
        execute_upload_with_retry m d (ec + 1) (sleeps ++ [d * 2 ^ (ec + 1)])
          (List.replicate (j + 1) (ChunkOutcome.httpErr 503)) := by
      simp [execute_upload_with_retry, h1]
    rw [hstep, ih (ec + 1) (sleeps ++ [d * 2 ^ (ec + 1)]) (by omega)]
    congr 1
    rw [List.range_succ_eq_map, List.map_cons, List.map_map]
    rw [show ((fun i => d * 2 ^ (ec + 1 + i)) ∘ Nat.succ) =
        (fun i => d * 2 ^ (ec + 1 + 1 + i)) from by
      funext i
      show d * 2 ^ (ec + 1 + (i + 1)) = d * 2 ^ (ec + 1 + 1 + i)
      rw [show ec + 1 + (i + 1) = ec + 1 + 1 + i from by omega]]
    rw [List.append_assoc, List.singleton_append]

/-- Counterexample to claim C5 as stated: with max_retries = 5 and
retry_delay = 2, the first invocation of the upload loop exhausts its
attempt budget on six consecutive 503 failures and raises, yet the overall
decorated call does not fail terminally - the decorator re-invokes the
loop and the upload completes successfully on the second invocation. -/
theorem retry_terminal_cex :
    execute_upload_with_retry 5 2 0 [] (List.replicate 6 (ChunkOutcome.httpErr 503)) =
      LoopResult.raised (UploadError.http 503) [4, 8, 16, 32, 64] ∧
    tenacity_retry 5 2 5 0
        [List.replicate 6 (ChunkOutcome.httpErr 503),
         [ChunkOutcome.chunk (some (some "vid"))]] =
      (2, LoopResult.completed (some "vid") []) := by
  exact ⟨rfl, rfl⟩

/-- Claim C5 (amended): within one invocation of the upload loop, the Nth
retry of a retryable 503 failure is preceded by a sleep of
retry_delay * 2 ^ N seconds, and when the attempt count exceeds the
configured maximum the invocation raises; the surrounding decorator then
re-invokes the loop, so with every invocation failing the same way the
failure becomes terminal only after five decorator attempts. -/
theorem retry_backoff_amended (m d : Nat) :
    execute_upload_with_retry m d 0 [] (List.replicate (m + 1) (ChunkOutcome.httpErr 503)) =
      LoopResult.raised (UploadError.http 503)
        ((List.range m).map (fun i => d * 2 ^ (1 + i))) ∧
    tenacity_retry m d 5 0
        (List.replicate 5 (List.replicate (m + 1) (ChunkOutcome.httpErr 503))) =
      (5, LoopResult.raised (UploadError.http 503)
        ((List.range m).map (fun i => d * 2 ^ (1 + i)))) := by
  have hrun := backoff_aux m d m 0 [] (by omega)
  simp only [List.nil_append, Nat.zero_add] at hrun
  refine ⟨hrun, ?_⟩
  generalize ht : List.replicate (m + 1) (ChunkOutcome.httpErr 503) = t at hrun ⊢
  simp [tenacity_retry, hrun, List.replicate_succ]

/-- Claim C6 evaluated on the code: a 404 HttpError on the first chunk call
raises out of the upload loop immediately with no backoff sleep, but the
decorated call is re-invoked by the decorator up to five total attempts
(the decorator retries on every HttpError, including client errors) before
the 404 finally propagates - not zero retries as the claim and the
non-retryable comment in the source intend. -/
theorem nonretryable_retry_bug :
    execute_upload_with_retry 5 2 0 [] [ChunkOutcome.httpErr 404] =
      LoopResult.raised (UploadError.http 404) [] ∧
    tenacity_retry 5 2 5 0 (List.replicate 5 [ChunkOutcome.httpErr 404]) =
      (5, LoopResult.raised (UploadError.http 404) []) := by
  exact ⟨rfl, rfl⟩

/-- Claim C7: once a pre-flight quota check fails (the plain upload check,
or the compound upload-plus-insert check when a playlist is requested), the
batch loop returns immediately with the state and stats untouched, whatever
files remain in the queue; concretely, with 2000 units remaining and three
candidates costing 1600 each, exactly one file uploads (leaving 400 units,
one throttle token taken, one success recorded) and the other two are never
attempted. -/
theorem batch_halt_on_quota (st : OrchState) (stats : Stats) (f : FileSpec)
    (rest : List FileSpec) :
    (f.alreadyUploaded = false → (check_quota st.quota "video_upload").1 = false →
        process_uploads st stats (f :: rest) = (st, stats)) ∧
    (f.alreadyUploaded = false → playlistRequested f = true →
        can_perform_operations st.quota [("video_upload", 1), ("playlist_insert", 1)] = false →
        process_uploads st stats (f :: rest) = (st, stats)) ∧
    ((process_uploads st2000 stats0 [file1, file2, file3]).2.successful = 1 ∧
     (process_uploads st2000 stats0 [file1, file2, file3]).2.failed = 0 ∧
     (process_uploads st2000 stats0 [file1, file2, file3]).2.videos = [("f1.mp4", "success")] ∧
     (process_uploads st2000 stats0 [file1, file2, file3]).1.quota.used_quota = 9600 ∧
     (process_uploads st2000 stats0 [file1, file2, file3]).1.quota.remaining_quota = 400 ∧
     (process_uploads st2000 stats0 [file1, file2, file3]).1.tokensTaken = 1) := by
  refine ⟨?_, ?_, by decide, by decide, by decide, by decide, by decide, by decide⟩
  · intro h1 h2
    simp [process_uploads, process_one, h1, h2]
  · intro h1 h2 h3
    by_cases hq : (check_quota st.quota "video_upload").1 = false
    · simp [process_uploads, process_one, h1, hq]
    · simp [process_uploads, process_one, h1, hq, h2, h3]

/-- Witness for C7: with only 400 units remaining the first pre-flight
check fails and the batch returns at once, untouched. -/
theorem batch_halt_on_quota_inst :
    process_uploads st400 stats0 [file1, file2] = (st400, stats0) :=
  (batch_halt_on_quota st400 stats0 file1 [file2]).1 rfl (by decide)

/-- Counterexample to claim C8 as stated: the queued file badFile fails
validation (it is empty) and the quota ledger is indeed unchanged, but the
throttle is invoked for it - the loop takes a token before the upload call
inside which validation happens, so the token count changes. -/
theorem validation_order_cex :
    validate_video_file badFile = false ∧
    (process_uploads st2000 stats0 [badFile]).1.quota = st2000.quota ∧
    ¬ (process_uploads st2000 stats0 [badFile]).1.tokensTaken = st2000.tokensTaken := by
  exact ⟨by decide, by decide, by decide⟩

/-- Claim C8 (amended): a queued file that fails validation is recorded as
failed with the quota ledger unchanged and no quota consumed, but the
pre-flight quota check runs before validation and exactly one throttle
token is consumed for the file, because validation happens inside the
upload call after the wait for a token; files with unsupported extensions
never enter the queue at all, since the directory scan keeps only supported
extensions. -/
theorem validation_failure_amended (st : OrchState) (stats : Stats) (f : FileSpec)
    (fs : List FileSpec) :
    (f.alreadyUploaded = false → validate_video_file f = false →
      (check_quota st.quota "video_upload").1 = true →
      (playlistRequested f &&
        !(can_perform_operations st.quota [("video_upload", 1), ("playlist_insert", 1)])) = false →
      process_one st stats f =
        ({ st with tokensTaken := st.tokensTaken + 1 },
         { stats with failed := stats.failed + 1,
                      videos := stats.videos ++ [(f.name, "failed")] },
         Ctl.proceed)) ∧
    (decide (f.suffix ∈ SUPPORTED_FORMATS) = false → f ∉ scan_videos fs) := by
  constructor
  · intro h1 h2 h3 h4
    simp [process_one, upload_phase, upload_video, h1, h2, h3, h4]
  · intro h hmem
    simp [scan_videos, List.mem_filter, h] at hmem

/-- Witness for C8 (amended): the empty queued file badFile is marked
failed with the ledger untouched and one token taken, and the xyz file is
filtered out by the scan. -/
theorem validation_failure_amended_inst :
    process_one st2000 stats0 badFile =
      ({ st2000 with tokensTaken := st2000.tokensTaken + 1 },
       { stats0 with failed := stats0.failed + 1,
                     videos := stats0.videos ++ [(badFile.name, "failed")] },
       Ctl.proceed) ∧
    xyzFile ∉ scan_videos [xyzFile] :=
  ⟨(validation_failure_amended st2000 stats0 badFile []).1 rfl (by decide) (by decide)
      (by decide),
   (validation_failure_amended st2000 stats0 xyzFile [xyzFile]).2 (by decide)⟩

/-- Claim C9: when the upload succeeds and a playlist is requested, the
file is recorded as a success and the upload cost is consumed in every
case; the playlist_insert cost is consumed exactly when the attach
operation succeeds - on attach failure (and likewise when no playlist id
could be obtained) only the upload cost is consumed and the outcome is
still a success. -/
theorem attach_failure_success (st : OrchState) (stats : Stats) (f : FileSpec)
    (v p pid : String)
    (h1 : f.alreadyUploaded = false)
    (h2 : (check_quota st.quota "video_upload").1 = true)
    (h3 : f.playlist = some p) (h4 : p.isEmpty = false)
    (h5 : can_perform_operations st.quota [("video_upload", 1), ("playlist_insert", 1)] = true)
    (h6 : upload_video f = some v) :
    (f.playlistId = some pid → pid.isEmpty = false → f.attachOk = false →
      process_one st stats f =
        ({ st with tokensTaken := st.tokensTaken + 2,
                   quota := consume_quota st.quota "video_upload" (some f.title) },
         { stats with successful := stats.successful + 1,
                      videos := stats.videos ++ [(f.name, "success")] },
         Ctl.proceed)) ∧
    (f.playlistId = some pid → pid.isEmpty = false → f.attachOk = true →
      process_one st stats f =
        ({ st with tokensTaken := st.tokensTaken + 2,
                   quota := consume_quota
                     (consume_quota st.quota "video_upload" (some f.title))
                     "playlist_insert" (some p) },
         { stats with successful := stats.successful + 1,
                      videos := stats.videos ++ [(f.name, "success")] },
         Ctl.proceed)) ∧
    (f.playlistId = none →
      process_one st stats f =
        ({ st with tokensTaken := st.tokensTaken + 1,
                   quota := consume_quota st.quota "video_upload" (some f.title) },
         { stats with successful := stats.successful + 1,
                      videos := stats.videos ++ [(f.name, "success")] },
         Ctl.proceed)) := by
  refine ⟨?_, ?_, ?_⟩
  · intro ha hb hc
    simp [process_one, playlistRequested, upload_phase, attach_phase,
      h1, h2, h3, h4, h5, h6, ha, hb, hc]
  · intro ha hb hc
    simp [process_one, playlistRequested, upload_phase, attach_phase,
      h1, h2, h3, h4, h5, h6, ha, hb, hc]
  · intro ha
    simp [process_one, playlistRequested, upload_phase, attach_phase,
      h1, h2, h3, h4, h5, h6, ha]

/-- Witness for C9 at the concrete file plFile, whose attach operation
fails: the outcome is a success and only the upload cost is consumed. -/
theorem attach_failure_success_inst :
    process_one st2000 stats0 plFile =
      ({ st2000 with tokensTaken := st2000.tokensTaken + 2,
                     quota := consume_quota st2000.quota "video_upload" (some plFile.title) },
       { stats0 with successful := stats0.successful + 1,
                     videos := stats0.videos ++ [(plFile.name, "success")] },
       Ctl.proceed) :=
  (attach_failure_success st2000 stats0 plFile "vidG" "PL" "plid" rfl (by decide) rfl
      (by decide) (by decide) (by decide)).1 rfl (by decide) rfl

/-- Claim C10: upload_video returns either the created resource id or
none; a terminal response without an id field yields none even though no
exception occurred, and both exception classes (HttpError and everything
else) are converted to none rather than propagated; conversely an id is
returned only when the transfer produced a terminal response carrying that
non-empty id and validation passed. -/
theorem upload_video_result (f : FileSpec) (i : String) :
    (f.transfer = TransferResult.response none → upload_video f = none) ∧
    (f.transfer = TransferResult.raisedHttp → upload_video f = none) ∧
    (f.transfer = TransferResult.raisedOther → upload_video f = none) ∧
    (upload_video f = some i →
      f.transfer = TransferResult.response (some i) ∧ i.isEmpty = false ∧
        validate_video_file f = true) := by
  refine ⟨?_, ?_, ?_, ?_⟩
  · intro h
    simp [upload_video, h]
  · intro h
    simp [upload_video, h]
  · intro h
    simp [upload_video, h]
  · intro h
    by_cases hv : validate_video_file f
    · rcases htr : f.transfer with idf | _ | _
      · rcases idf with _ | s
        · simp [upload_video, hv, htr] at h
        · by_cases hs : s.isEmpty
          · simp [upload_video, hv, htr, hs] at h
          · simp [upload_video, hv, htr, hs] at h
            subst h
            exact ⟨rfl, by simpa using hs, hv⟩
      · simp [upload_video, hv, htr] at h
      · simp [upload_video, hv, htr] at h
    · simp [upload_video, hv] at h

/-- Witness for C10 at okFile: from the computed result abc the direction
from result to transfer outcome is discharged concretely. -/
theorem upload_video_result_inst :
    okFile.transfer = TransferResult.response (some "abc") ∧
      String.isEmpty "abc" = false ∧ validate_video_file okFile = true :=
  (upload_video_result okFile "abc").2.2.2 (by decide)
